import Mathlib

/-!
Verification of the emissions-dashboard data pipeline (`app.py`): region-name
normalization, filtering, grouped aggregation with top-10 facility rankings,
quantity formatting, the region-by-year heatmap table, and the choropleth merge.

Numeric quantities (`cantidad_toneladas` and sums thereof) are modelled as
exact rationals (`ℚ`); Python's fixed-point formatting `"{x:.nf}"` is modelled
by round-half-to-even on the exact value, and `int(x)` by truncation toward
zero, matching CPython's behaviour on the values at stake.
-/

set_option maxRecDepth 100000

namespace MMA

/-- The apostrophe character (U+0027), built from its code point. -/
def sq : Char := Char.ofNat 39

/-- The apostrophe as a one-character string. -/
def sqS : String := String.mk [sq]

/-- Lower-casing of a single character: ASCII letters plus the accented
letters and Ñ that occur in the region tables (models the case folding
that PostgreSQL `ILIKE` performs on these strings). -/
def lowerChar (c : Char) : Char :=
  if c = 'Á' then 'á'
  else if c = 'É' then 'é'
  else if c = 'Í' then 'í'
  else if c = 'Ó' then 'ó'
  else if c = 'Ú' then 'ú'
  else if c = 'Ñ' then 'ñ'
  else if 'A' ≤ c ∧ c ≤ 'Z' then Char.ofNat (c.toNat + 32)
  else c

/-- Upper-casing of a single character (inverse direction, used by the
pandas `.str.upper()` calls in the choropleth merge). -/
def upperChar (c : Char) : Char :=
  if c = 'á' then 'Á'
  else if c = 'é' then 'É'
  else if c = 'í' then 'Í'
  else if c = 'ó' then 'Ó'
  else if c = 'ú' then 'Ú'
  else if c = 'ñ' then 'Ñ'
  else if 'a' ≤ c ∧ c ≤ 'z' then Char.ofNat (c.toNat - 32)
  else c

/-- Character-wise lower-casing of a string. -/
def lowerStr (s : String) : String := ⟨s.data.map lowerChar⟩

/-- Character-wise upper-casing of a string (pandas `.str.upper()`). -/
def upperStr (s : String) : String := ⟨s.data.map upperChar⟩

/-- SQL `TRIM`: strip leading and trailing space characters. -/
def sqlTrim (s : String) : String :=
  ⟨((s.data.dropWhile (· == ' ')).reverse.dropWhile (· == ' ')).reverse⟩

/-- `strStartsWith s p`: `s` begins with `p` (character-wise). -/
def strStartsWith (s p : String) : Bool := p.data.isPrefixOf s.data

/-- The raw spelling `"O'Higgins"`. -/
def oHigginsRaw : String := "O" ++ sqS ++ "Higgins"

/-- The raw spelling `"Libertador Gral. Bernardo O'Higgins"`. -/
def libGralOHiggins : String := "Libertador Gral. Bernardo O" ++ sqS ++ "Higgins"

/-- The canonical name `"Libertador General Bernardo O'Higgins"`. -/
def libGeneralOHiggins : String := "Libertador General Bernardo O" ++ sqS ++ "Higgins"

/-- The geometry-table raw spelling `"Región del Libertador Bernardo O'Higgins"`. -/
def regionDelLibertador : String := "Región del Libertador Bernardo O" ++ sqS ++ "Higgins"

/-- The exact (no-wildcard) `ILIKE` rules of the `region_norm` CASE expression
in the emissions SQL query, in source order: each pair is
(raw spelling, canonical name); matching is case-insensitive equality on the
trimmed input.  The first CASE branch (`ILIKE 'Metropolitana%'`) is a prefix
pattern and is handled separately in `region_norm_sql`. -/
def emissionsRules : List (String × String) :=
  [ ("Araucanía", "La Araucanía")
  , ("Ñuble", "Ñuble")
  , ("Coquimbo", "Coquimbo")
  , ("Tarapacá", "Tarapacá")
  , ("Antofagasta", "Antofagasta")
  , ("La Araucanía", "La Araucanía")
  , ("Los Lagos", "Los Lagos")
  , ("Los Ríos", "Los Ríos")
  , ("Atacama", "Atacama")
  , ("Biobío", "Biobío")
  , ("Maule", "Maule")
  , ("Arica y Parinacota", "Arica y Parinacota")
  , ("Valparaíso", "Valparaíso")
  , ("Magallanes y de la Antártica Chilena", "Magallanes y de la Antártica Chilena")
  , ("Magallanes", "Magallanes y de la Antártica Chilena")
  , (oHigginsRaw, libGeneralOHiggins)
  , (libGralOHiggins, libGeneralOHiggins)
  , ("Aysén del Gral. Carlos Ibáñez del Campo", "Aysén del General Carlos Ibáñez del Campo")
  , ("Aysén del General Carlos Ibáñez del Campo", "Aysén del General Carlos Ibáñez del Campo")
  ]

/-- The emissions-side region normalizer: the `CASE … WHEN TRIM(eh.region)
ILIKE … END AS region_norm` expression of the SQL query.  The input is
trimmed; the `'Metropolitana%'` prefix rule is tried first, then the exact
case-insensitive rules in order; if nothing matches the trimmed input is
returned unchanged (the `ELSE TRIM(eh.region)` branch). -/
def region_norm_sql (region : String) : String :=
  let t := sqlTrim region
  if strStartsWith (lowerStr t) "metropolitana" then "Metropolitana de Santiago"
  else
    match emissionsRules.find? (fun p => lowerStr t == lowerStr p.1) with
    | some p => p.2
    | none => t

/-- The geometry-side normalization dictionary `mapa_norm` of
`load_regions_geojson`, in source order. -/
def mapa_norm : List (String × String) :=
  [ ("Región Metropolitana de Santiago", "Metropolitana de Santiago")
  , ("Región de La Araucanía", "La Araucanía")
  , ("Región de Ñuble", "Ñuble")
  , ("Región de Coquimbo", "Coquimbo")
  , ("Región de Tarapacá", "Tarapacá")
  , ("Región de Antofagasta", "Antofagasta")
  , ("Región de Los Lagos", "Los Lagos")
  , ("Región de Los Ríos", "Los Ríos")
  , ("Región de Atacama", "Atacama")
  , ("Región del Bío-Bío", "Biobío")
  , ("Región del Maule", "Maule")
  , ("Región de Arica y Parinacota", "Arica y Parinacota")
  , ("Región de Valparaíso", "Valparaíso")
  , ("Región de Magallanes y Antártica Chilena", "Magallanes y de la Antártica Chilena")
  , ("Región de Aysén del Gral.Ibañez del Campo", "Aysén del General Carlos Ibáñez del Campo")
  , (regionDelLibertador, libGeneralOHiggins)
  , ("Zona sin demarcar", "Sin demarcar")
  ]

/-- The geometry-side normalizer `gdf["Region"].map(mapa_norm)`: an exact
dictionary lookup; a name that is not a key yields a missing value
(pandas `NaN`), modelled as `none`. -/
def mapa_norm_fn (s : String) : Option String :=
  (mapa_norm.find? (fun p => p.1 == s)).map (·.2)

/-- Floor of a rational as an integer (`Int.fdiv` is floor division). -/
def ratFloor (q : ℚ) : ℤ := Int.fdiv q.num q.den

/-- Ceiling of a rational as an integer. -/
def ratCeil (q : ℚ) : ℤ := -Int.fdiv (-q.num) q.den

/-- Python `int(x)`: truncation toward zero. -/
def truncInt (q : ℚ) : ℤ := if 0 ≤ q then ratFloor q else ratCeil q

/-- Round half to even (banker's rounding), the rounding used by CPython's
fixed-point float formatting. -/
def rhe (q : ℚ) : ℤ :=
  let f := ratFloor q
  let frac := q - (f : ℚ)
  if frac < 1/2 then f
  else if (1:ℚ)/2 < frac then f + 1
  else if f % 2 = 0 then f else f + 1

/-- Left-pad a string with `'0'` to length `d`. -/
def padZeros (s : String) (d : ℕ) : String :=
  ⟨List.replicate (d - s.length) '0'⟩ ++ s

/-- Python `f"{q:.df}"` on an exact rational: round `q·10^d` half-to-even and
render with exactly `d` decimal places (`d = 0` renders a bare integer). -/
def fmtFixed (q : ℚ) (d : ℕ) : String :=
  let n : ℤ := rhe (q * (10:ℚ)^d)
  if d = 0 then toString n
  else
    let m := n.natAbs
    (if n < 0 then "-" else "") ++ toString (m / 10^d) ++ "." ++ padZeros (toString (m % 10^d)) d

/-- The heatmap cell-text formatter (the `text_vals` loop):
`f"{val/1e6:.1f}M"` at or above a million, `f"{int(val/1e3)}k"` at or above a
thousand, else `str(int(val))`. -/
def text_val (val : ℚ) : String :=
  if 1000000 ≤ val then fmtFixed (val / 1000000) 1 ++ "M"
  else if 1000 ≤ val then toString (truncInt (val / 1000)) ++ "k"
  else toString (truncInt val)

/-- The heatmap hover emission formatter (the `emis_str` branch):
`f"{emis/1e6:.1f}M Ton"`, `f"{emis/1e3:.0f}k Ton"`, or `f"{emis:.0f} Ton"`. -/
def emis_str (emis : ℚ) : String :=
  if 1000000 ≤ emis then fmtFixed (emis / 1000000) 1 ++ "M Ton"
  else if 1000 ≤ emis then fmtFixed (emis / 1000) 0 ++ "k Ton"
  else fmtFixed emis 0 ++ " Ton"

/-- The quantity part of a top-10 facility label: `f"{val/1e6:.2f} M"`,
used unconditionally (no thousand/unit case) in all three tooltip builders. -/
def facilityQty (val : ℚ) : String := fmtFixed (val / 1000000) 2 ++ " M"

/-- A full top-10 facility label line:
`f"{id_vu} – {nombre} ({val/1e6:.2f} M)"`. -/
def facilityLabel (id_vu nombre : String) (val : ℚ) : String :=
  id_vu ++ " – " ++ nombre ++ " (" ++ facilityQty val ++ ")"

/-- One row of the emissions table, as returned by `load_emissions_data`. -/
structure EmissionRecord where
  period : ℤ
  region_norm : String
  id_vu : String
  nombre_establecimiento : String
  rubro_vu : String
  contaminantes : String
  emisiones : ℚ
deriving DecidableEq

/-- `filtrar_emisiones`: conjunction of optional predicates.  A string
parameter that is `None` (here `none`), empty (Python falsy) or `"Todos"` is
not applied; the year-range predicate is applied only when both bounds are
present. -/
def filtrar_emisiones (df : List EmissionRecord)
    (rubro contaminante region : Option String)
    (anio_min anio_max : Option ℤ) : List EmissionRecord :=
  let d1 := match rubro with
    | some s => if s == "" || s == "Todos" then df else df.filter (fun x => x.rubro_vu == s)
    | none => df
  let d2 := match contaminante with
    | some s => if s == "" || s == "Todos" then d1 else d1.filter (fun x => x.contaminantes == s)
    | none => d1
  let d3 := match region with
    | some s => if s == "" || s == "Todos" then d2 else d2.filter (fun x => x.region_norm == s)
    | none => d2
  match anio_min, anio_max with
  | some a, some b => d3.filter (fun x => decide (a ≤ x.period) && decide (x.period ≤ b))
  | _, _ => d3

/-- Lexicographic order on character lists by code point (the order pandas
uses when sorting string group keys). -/
def listLexLe : List Char → List Char → Bool
  | [], _ => true
  | _ :: _, [] => false
  | c :: cs, d :: ds => if c = d then listLexLe cs ds else decide (c < d)

/-- Lexicographic string order by code point. -/
def strLe (a b : String) : Bool := listLexLe a.data b.data

/-- Order on integer years. -/
def intLe (a b : ℤ) : Bool := decide (a ≤ b)

/-- Lexicographic order on `(id_vu, nombre_establecimiento)` pairs (the order
of a pandas two-level groupby index). -/
def pairLe (a b : String × String) : Bool :=
  if a.1 = b.1 then strLe a.2 b.2 else strLe a.1 b.1

/-- The distinct `region_norm` values of a record list, in sorted order
(a pandas groupby index). -/
def regionKeys (df : List EmissionRecord) : List String :=
  ((df.map (·.region_norm)).dedup).mergeSort strLe

/-- `df_filtrado.groupby("region_norm")["emisiones"].sum().reset_index()`:
one `(region, summed quantity)` row per occurring region (section 7.3 of the
source; also the un-sorted core of section 4.1). -/
def emis_region_total (df : List EmissionRecord) : List (String × ℚ) :=
  (regionKeys df).map
    (fun k => (k, ((df.filter (fun r => r.region_norm == k)).map (·.emisiones)).sum))

/-- Ascending-by-total comparison used by `sort_values(ascending=True)`. -/
def ascByVal (a b : String × ℚ) : Bool := decide (a.2 ≤ b.2)

/-- `emis_region`: groupby-region sums sorted ascending by total
(section 4.1 of the source). -/
def emis_region (df : List EmissionRecord) : List (String × ℚ) :=
  (emis_region_total df).mergeSort ascByVal

/-- The two-level facility group key `(id_vu, nombre_establecimiento)`. -/
def facKey (r : EmissionRecord) : String × String := (r.id_vu, r.nombre_establecimiento)

/-- Distinct facility keys of a group, in groupby index order. -/
def facKeys (group : List EmissionRecord) : List (String × String) :=
  ((group.map facKey).dedup).mergeSort pairLe

/-- `groupby(["id_vu","nombre_establecimiento"])["emisiones"].sum()`:
one `(facility, summed quantity)` row per facility of the group. -/
def facTotals (group : List EmissionRecord) : List ((String × String) × ℚ) :=
  (facKeys group).map
    (fun k => (k, ((group.filter (fun r => facKey r == k)).map (·.emisiones)).sum))

/-- Descending-by-total comparison used by `sort_values(ascending=False)`. -/
def descByVal (a b : (String × String) × ℚ) : Bool := decide (b.2 ≤ a.2)

/-- `top10`: facility totals of a group, sorted descending by summed
quantity, truncated to the first 10 (`.head(10)`). -/
def top10 (group : List EmissionRecord) : List ((String × String) × ℚ) :=
  ((facTotals group).mergeSort descByVal).take 10

/-- The rendered label lines of a top-10 ranking (`lista_html`). -/
def top10Lines (group : List EmissionRecord) : List String :=
  (top10 group).map (fun e => facilityLabel e.1.1 e.1.2 e.2)

/-- Python `"<br>".join(...)`. -/
def joinBr : List String → String
  | [] => ""
  | [s] => s
  | s :: rest => s ++ "<br>" ++ joinBr rest

/-- The `Top10_Establecimientos` tooltip string for one region group
(section 4.2 of the source). -/
def regionTop10Html (df : List EmissionRecord) (region : String) : String :=
  joinBr (top10Lines (df.filter (fun r => r.region_norm == region)))

/-- The `Top10_Establecimientos` tooltip string for one rubro group
(section 5 of the source). -/
def rubroTop10Html (df : List EmissionRecord) (rubro : String) : String :=
  joinBr (top10Lines (df.filter (fun r => r.rubro_vu == rubro)))

/-- The records of one region×year heatmap cell (`df_r_a`). -/
def cellRecords (df : List EmissionRecord) (region : String) (year : ℤ) : List EmissionRecord :=
  df.filter (fun r => r.region_norm == region && r.period == year)

/-- The value of one heatmap cell: the `groupby(["region_norm","period"])`
sum, with `unstack(fill_value=0)` making an absent combination 0 — which
coincides with the empty sum. -/
def cellValue (df : List EmissionRecord) (region : String) (year : ℤ) : ℚ :=
  ((cellRecords df region year).map (·.emisiones)).sum

/-- The heatmap row labels: distinct occurring regions (pivot index). -/
def heatRegions (df : List EmissionRecord) : List String := regionKeys df

/-- The heatmap column labels: distinct occurring years (pivot columns). -/
def heatYears (df : List EmissionRecord) : List ℤ :=
  ((df.map (·.period)).dedup).mergeSort intLe

/-- The heatmap value matrix `z_vals`: one row per occurring region, one
column per occurring year. -/
def z_vals (df : List EmissionRecord) : List (List ℚ) :=
  (heatRegions df).map (fun r => (heatYears df).map (fun y => cellValue df r y))

/-- The heatmap cell-text matrix `text_vals`. -/
def text_vals (df : List EmissionRecord) : List (List String) :=
  (z_vals df).map (fun fila => fila.map text_val)

/-- The top-10 part of a heatmap cell's hover text: the literal
`"Sin datos"` when the cell has no records, else the joined label lines. -/
def cellTop10Str (df : List EmissionRecord) (region : String) (year : ℤ) : String :=
  if cellRecords df region year = [] then "Sin datos"
  else joinBr (top10Lines (cellRecords df region year))

/-- The full hover text of one heatmap cell. -/
def cellHover (df : List EmissionRecord) (region : String) (year : ℤ) : String :=
  "<b>Región:</b> " ++ region ++ "<br>" ++
  "<b>Año:</b> " ++ toString year ++ "<br>" ++
  "<b>Emisiones:</b> " ++ emis_str (cellValue df region year) ++ "<br><br>" ++
  "<b>Top 10 Establecimientos:</b><br>" ++ cellTop10Str df region year

/-- A geometry feature, reduced to the data the pipeline uses: the raw
`Region` property and the `region_norm` obtained from `mapa_norm_fn`
(`none` models a pandas `NaN` from an unmapped name). -/
def loadGeoFeature (name : String) : String × Option String := (name, mapa_norm_fn name)

/-- The upper-cased merge key of a geometry feature (`REGION_UP`;
missing stays missing). -/
def geoKey (g : String × Option String) : Option String := g.2.map upperStr

/-- The rows a left merge produces for one geometry feature: every total row
whose upper-cased region equals the feature's key, or — when there is none —
a single row whose `emisiones` is the `fillna` value 0. -/
def geoMergeRow (totals : List (String × ℚ)) (g : String × Option String) :
    List ((String × Option String) × ℚ) :=
  match totals.filter (fun t => geoKey g == some (upperStr t.1)) with
  | [] => [(g, 0)]
  | ms => ms.map (fun t => (g, t.2))

/-- `geo_merged`: the left merge of the geometry features with the
per-region totals on `REGION_UP`, with `fillna({"emisiones": 0})`
(section 7.4 of the source). -/
def geo_merged (geo : List (String × Option String)) (df : List EmissionRecord) :
    List ((String × Option String) × ℚ) :=
  geo.flatMap (geoMergeRow (emis_region_total df))

/-- A demonstration record (the spec's own scenario data). -/
def rec1 : EmissionRecord :=
  ⟨2020, "Tarapacá", "F1", "Planta Uno", "Minería", "PM10", 500⟩

/-- A second demonstration record. -/
def rec2 : EmissionRecord :=
  ⟨2020, "Tarapacá", "F2", "Planta Dos", "Minería", "PM10", 300⟩

/-- A two-record demonstration table. -/
def demoDf : List EmissionRecord := [rec1, rec2]

/-- Every raw region spelling appearing in the two curated mapping tables:
the prefix stem and exact spellings of the SQL CASE rules, and the keys of
the geometry dictionary. -/
def allRawSpellings : List String :=
  "Metropolitana" :: (emissionsRules.map (·.1)) ++ (mapa_norm.map (·.1))

/-- Whether some rule of the emissions-side CASE expression matches the
input (the prefix rule or any exact case-insensitive rule). -/
def emissionsRuleMatches (s : String) : Bool :=
  strStartsWith (lowerStr (sqlTrim s)) "metropolitana" ||
  emissionsRules.any (fun p => lowerStr (sqlTrim s) == lowerStr p.1)

/-- Summing a weight over two disjoint filters of a list equals summing it
over the filter of their disjunction. -/
theorem sum_filter_disjoint {R : Type} (w : R → ℚ) (p q : R → Bool)
    (hdisj : ∀ r, ¬(p r = true ∧ q r = true)) :
    ∀ df : List R, ((df.filter p).map w).sum + ((df.filter q).map w).sum
      = ((df.filter (fun r => p r || q r)).map w).sum := by
  intro df
  induction df with
  | nil => simp
  | cons r rs ih =>
    cases hp : p r with
    | true =>
      have hq : q r = false := by
        cases hq : q r with
        | true => exact absurd ⟨hp, hq⟩ (hdisj r)
        | false => rfl
      simp [List.filter_cons, hp, hq]
      linarith [ih]
    | false =>
      cases hq : q r with
      | true =>
        simp [List.filter_cons, hp, hq]
        linarith [ih]
      | false =>
        simpa [List.filter_cons, hp, hq] using ih

/-- Summing the per-key group sums over a duplicate-free key list equals
summing the weight over the records whose key lies in that list. -/
theorem sum_groups {R K : Type} [DecidableEq K] (w : R → ℚ) (key : R → K) :
    ∀ keys : List K, keys.Nodup → ∀ df : List R,
      ((keys.map (fun k => ((df.filter (fun r => key r == k)).map w).sum)).sum)
        = ((df.filter (fun r => keys.contains (key r))).map w).sum := by
  intro keys
  induction keys with
  | nil => intro _ df; simp
  | cons k ks ih =>
    intro hnd df
    obtain ⟨hk, hks⟩ := List.nodup_cons.mp hnd
    simp only [List.map_cons, List.sum_cons]
    rw [ih hks df]
    have hdisj : ∀ r, ¬((key r == k) = true ∧ ks.contains (key r) = true) := by
      rintro r ⟨h1, h2⟩
      have h1' : key r = k := by simpa using h1
      rw [h1'] at h2
      exact hk (by simpa using h2)
    rw [sum_filter_disjoint w _ _ hdisj df]
    congr 1

/-- C1: for every sequence of emission records, the per-region totals
produced by the groupby-region sum (`emis_region`) add up to the sum of the
quantities of all input records: grouping conserves the total. -/
theorem emis_region_conservation (df : List EmissionRecord) :
    ((emis_region df).map (·.2)).sum = (df.map (·.emisiones)).sum := by
  unfold emis_region emis_region_total
  rw [((List.mergeSort_perm _ ascByVal).map (·.2)).sum_eq]
  rw [List.map_map]
  unfold regionKeys
  rw [((List.mergeSort_perm _ strLe).map _).sum_eq]
  have h := sum_groups (·.emisiones) (·.region_norm)
    ((df.map (·.region_norm)).dedup) (List.nodup_dedup _) df
  simp only [Function.comp_def] at h ⊢
  rw [h]
  congr 1
  congr 1
  apply List.filter_eq_self.mpr
  intro r hr
  simpa [List.mem_dedup] using List.mem_map_of_mem (·.region_norm) hr

/-- C2: for every group of records, the top-facilities computation
(`top10`: group by `(id_vu, nombre_establecimiento)`, sum, sort descending,
`head(10)`) returns at most 10 entries, in non-increasing order of summed
quantity, and each listed facility's quantity equals the sum of that
facility's record quantities within the group. -/
theorem top10_spec (group : List EmissionRecord) :
    (top10 group).length ≤ 10 ∧
    List.Pairwise (fun a b => b.2 ≤ a.2) (top10 group) ∧
    ∀ e ∈ top10 group,
      e.2 = ((group.filter (fun r => facKey r == e.1)).map (·.emisiones)).sum := by
  refine ⟨?_, ?_, ?_⟩
  · unfold top10
    rw [List.length_take]
    exact min_le_left _ _
  · unfold top10
    apply List.Pairwise.sublist (List.take_sublist _ _)
    have htrans : ∀ a b c : (String × String) × ℚ,
        descByVal a b = true → descByVal b c = true → descByVal a c = true := by
      intro a b c hab hbc
      exact decide_eq_true (le_trans (of_decide_eq_true hbc) (of_decide_eq_true hab))
    have htotal : ∀ a b : (String × String) × ℚ,
        (descByVal a b || descByVal b a) = true := by
      intro a b
      rcases le_total b.2 a.2 with h | h <;> simp [descByVal, h]
    have h := List.sorted_mergeSort htrans htotal (facTotals group)
    exact h.imp (fun hab => of_decide_eq_true hab)
  · intro e he
    unfold top10 at he
    have he1 : e ∈ (facTotals group).mergeSort descByVal :=
      (List.take_sublist _ _).subset he
    have he2 : e ∈ facTotals group :=
      (List.mergeSort_perm _ _).mem_iff.mp he1
    unfold facTotals at he2
    obtain ⟨k, _, hke⟩ := List.mem_map.mp he2
    rw [← hke]

/-- Witness for C2 at the spec's demonstration table. -/
theorem top10_spec_witness :
    (top10 demoDf).length ≤ 10 ∧
    ((("F1", "Planta Uno"), (500 : ℚ)) ∈ top10 demoDf) ∧
    (500 : ℚ) = ((demoDf.filter (fun r => facKey r == ("F1", "Planta Uno"))).map (·.emisiones)).sum :=
  ⟨(top10_spec demoDf).1, by with_unfolding_all decide,
    (top10_spec demoDf).2.2 (("F1", "Planta Uno"), (500 : ℚ)) (by with_unfolding_all decide)⟩

/-- C3: a filter in which every string criterion is absent or the `"Todos"`
sentinel and both year bounds are absent returns the input unchanged,
preserving content and row order. -/
theorem filtrar_all_noop (df : List EmissionRecord) (rubro contaminante region : Option String)
    (h1 : rubro = none ∨ rubro = some "Todos")
    (h2 : contaminante = none ∨ contaminante = some "Todos")
    (h3 : region = none ∨ region = some "Todos") :
    filtrar_emisiones df rubro contaminante region none none = df := by
  rcases h1 with h1 | h1 <;> rcases h2 with h2 | h2 <;> rcases h3 with h3 | h3 <;>
    subst h1 <;> subst h2 <;> subst h3 <;> simp [filtrar_emisiones]

/-- Witness for C3. -/
theorem filtrar_all_noop_witness :
    filtrar_emisiones demoDf (some "Todos") none (some "Todos") none none = demoDf :=
  filtrar_all_noop demoDf (some "Todos") none (some "Todos")
    (Or.inr rfl) (Or.inl rfl) (Or.inr rfl)

/-- C4: when exactly one of the two year bounds is absent, no year filtering
is applied at all — the result coincides with the same filter with both
bounds absent, the other predicates still applying. -/
theorem filtrar_partial_year (df : List EmissionRecord)
    (rubro contaminante region : Option String) (anio_min anio_max : Option ℤ)
    (h : (anio_min = none ∧ anio_max ≠ none) ∨ (anio_min ≠ none ∧ anio_max = none)) :
    filtrar_emisiones df rubro contaminante region anio_min anio_max
      = filtrar_emisiones df rubro contaminante region none none := by
  rcases h with ⟨h1, h2⟩ | ⟨h1, h2⟩
  · subst h1
    cases anio_max with
    | none => exact absurd rfl h2
    | some b => rfl
  · subst h2
    cases anio_min with
    | none => exact absurd rfl h1
    | some a => rfl

/-- Witness for C4: a lower bound alone filters nothing. -/
theorem filtrar_partial_year_witness :
    filtrar_emisiones demoDf none none none (some 2019) none
      = filtrar_emisiones demoDf none none none none none :=
  filtrar_partial_year demoDf none none none (some 2019) none
    (Or.inr ⟨by simp, rfl⟩)

/-- C5 counterexample: the heatmap hover emission string does not follow the
claimed shared rule.  At 1500 the cell text is `"1k"` (integer division of
the value by 1e3), but the hover string is `"2k Ton"` — `f"{emis/1e3:.0f}"`
rounds 1.5 half-to-even to 2 — so the hover is not governed by the
integer-division k-case the claim states. -/
theorem formatting_shared_rule_cex :
    text_val 1500 = "1k" ∧ emis_str 1500 = "2k Ton" ∧
    emis_str 1500 ≠ toString (truncInt ((1500 : ℚ) / 1000)) ++ "k Ton" := by
  with_unfolding_all decide

/-- C5 (amended): 999 renders as `"999"`, 1500 as `"1k"`, 2340000 as
`"2.3M"`, and the facility-label variant of 2340000 as `"2.34 M"`; the hover
emission string shares the 1e6/1e3 thresholds and the 1-decimal M-case, but
in its k- and unit-cases it rounds half-to-even instead of truncating, so
1500 hovers as `"2k Ton"` (and 999 as `"999 Ton"`, 2340000 as
`"2.3M Ton"`). -/
theorem formatting_spec :
    text_val 999 = "999" ∧ text_val 1500 = "1k" ∧ text_val 2340000 = "2.3M" ∧
    facilityQty 2340000 = "2.34 M" ∧
    emis_str 999 = "999 Ton" ∧ emis_str 1500 = "2k Ton" ∧
    emis_str 2340000 = "2.3M Ton" := by
  with_unfolding_all decide

/-- C6 counterexample: the geometry-side normalizer is not idempotent on the
curated table: it sends the raw spelling `"Región de Ñuble"` to the
canonical `"Ñuble"`, but feeding that output back in yields a missing value
(`none`), not the same value again — canonical outputs are not keys of
`mapa_norm`. -/
theorem mapa_norm_not_idempotent_cex :
    mapa_norm_fn "Región de Ñuble" = some "Ñuble" ∧ mapa_norm_fn "Ñuble" = none := by
  with_unfolding_all decide

/-- C6 (amended): the emissions-side normalizer is idempotent on every raw
spelling of both curated tables, and every canonical output of the geometry
table is a fixed point of the emissions-side normalizer; the geometry-side
dictionary itself, however, is not idempotent (see the counterexample). -/
theorem region_norm_idempotent :
    (∀ x ∈ allRawSpellings, region_norm_sql (region_norm_sql x) = region_norm_sql x) ∧
    (∀ p ∈ mapa_norm, region_norm_sql p.2 = p.2) := by
  with_unfolding_all decide

/-- Witness for C6 (amended) at the prefix stem and at a geometry row. -/
theorem region_norm_idempotent_witness :
    region_norm_sql (region_norm_sql "Metropolitana") = region_norm_sql "Metropolitana" ∧
    region_norm_sql "Sin demarcar" = "Sin demarcar" :=
  ⟨region_norm_idempotent.1 "Metropolitana" (by with_unfolding_all decide),
    region_norm_idempotent.2 ("Zona sin demarcar", "Sin demarcar") (by with_unfolding_all decide)⟩

/-- C7 counterexample: a geometry-side region name matching no rule is
mapped to a missing value (pandas `NaN`), not to the literal sentinel
`"Sin demarcar"` the claim states. -/
theorem geo_fallback_cex :
    mapa_norm_fn "Zona desconocida" = none ∧
    mapa_norm_fn "Zona desconocida" ≠ some "Sin demarcar" := by
  with_unfolding_all decide

/-- C7 (amended): an emissions-side name matching no rule is returned
trimmed but otherwise unchanged; a geometry-side name that is not a key
yields a missing value (never an error), and the `"Sin demarcar"` sentinel
is produced only for the specific raw name `"Zona sin demarcar"`. -/
theorem normalizer_fallback :
    (∀ s, emissionsRuleMatches s = false → region_norm_sql s = sqlTrim s) ∧
    (∀ s, (∀ p ∈ mapa_norm, p.1 ≠ s) → mapa_norm_fn s = none) ∧
    mapa_norm_fn "Zona sin demarcar" = some "Sin demarcar" := by
  refine ⟨?_, ?_, by with_unfolding_all decide⟩
  · intro s h
    rw [emissionsRuleMatches, Bool.or_eq_false_iff] at h
    obtain ⟨hpre, hany⟩ := h
    have hfind : emissionsRules.find? (fun p => lowerStr (sqlTrim s) == lowerStr p.1) = none :=
      List.find?_eq_none.mpr (by
        intro p hp
        exact (List.any_eq_false.mp hany) p hp)
    unfold region_norm_sql
    rw [if_neg (by simp [hpre]), hfind]
  · intro s h
    unfold mapa_norm_fn
    rw [List.find?_eq_none.mpr (by
      intro p hp
      simpa using h p hp)]
    rfl

/-- Witness for C7 (amended) at a name unknown to both tables. -/
theorem normalizer_fallback_witness :
    region_norm_sql "Zona Austral" = sqlTrim "Zona Austral" ∧
    mapa_norm_fn "Zona Austral" = none :=
  ⟨normalizer_fallback.1 "Zona Austral" (by with_unfolding_all decide),
    normalizer_fallback.2.1 "Zona Austral" (by with_unfolding_all decide)⟩

/-- C8: the heatmap table is dense over occurring regions × occurring years
(one row per region, each row one value per year), and a combination with no
matching records has total quantity 0 and the explicit `"Sin datos"` label
as its per-cell top-10 hover detail. -/
theorem heatmap_dense_cell (df : List EmissionRecord) (region : String) (year : ℤ)
    (h : cellRecords df region year = []) :
    cellValue df region year = 0 ∧
    cellTop10Str df region year = "Sin datos" ∧
    (z_vals df).map List.length
      = List.replicate (heatRegions df).length (heatYears df).length := by
  refine ⟨?_, ?_, ?_⟩
  · unfold cellValue
    rw [h]
    rfl
  · unfold cellTop10Str
    rw [if_pos h]
  · unfold z_vals
    rw [List.map_map]
    simp [Function.comp_def]

/-- Witness for C8 at an empty cell of the demonstration table. -/
theorem heatmap_dense_cell_witness :
    cellValue demoDf "Tarapacá" 2019 = 0 ∧
    cellTop10Str demoDf "Tarapacá" 2019 = "Sin datos" ∧
    (z_vals demoDf).map List.length
      = List.replicate (heatRegions demoDf).length (heatYears demoDf).length :=
  heatmap_dense_cell demoDf "Tarapacá" 2019 (by with_unfolding_all decide)

/-- C9: in all three top-10 tooltip builders (by region, by rubro, and by
region×year heatmap cell) the facility quantity is rendered as value/1e6
with exactly 2 decimals and an `" M"` suffix regardless of magnitude: the
500- and 300-tonne facilities of the demonstration table render as
`"0.00 M"` — there is no k-case or plain-integer case for facility labels. -/
theorem facility_label_two_decimal_M :
    facilityQty 500 = "0.00 M" ∧
    regionTop10Html demoDf "Tarapacá"
      = "F1 – Planta Uno (0.00 M)<br>F2 – Planta Dos (0.00 M)" ∧
    rubroTop10Html demoDf "Minería"
      = "F1 – Planta Uno (0.00 M)<br>F2 – Planta Dos (0.00 M)" ∧
    cellTop10Str demoDf "Tarapacá" 2020
      = "F1 – Planta Uno (0.00 M)<br>F2 – Planta Dos (0.00 M)" := by
  with_unfolding_all decide

/-- C10: the choropleth left merge keeps every geometry feature, and a
feature whose upper-cased key matches no filtered per-region total is paired
with the `fillna` emissions value 0 rather than dropped. -/
theorem geo_merged_left_total (geo : List (String × Option String)) (df : List EmissionRecord) :
    (∀ g ∈ geo, ∃ v, (g, v) ∈ geo_merged geo df) ∧
    (∀ g ∈ geo,
      (∀ t ∈ emis_region_total df, geoKey g ≠ some (upperStr t.1)) →
      (g, 0) ∈ geo_merged geo df) := by
  constructor
  · intro g hg
    unfold geo_merged
    cases hms : (emis_region_total df).filter (fun t => geoKey g == some (upperStr t.1)) with
    | nil =>
      refine ⟨0, List.mem_flatMap.mpr ⟨g, hg, ?_⟩⟩
      unfold geoMergeRow
      rw [hms]
      exact List.mem_singleton.mpr rfl
    | cons t ts =>
      refine ⟨t.2, List.mem_flatMap.mpr ⟨g, hg, ?_⟩⟩
      unfold geoMergeRow
      rw [hms]
      exact List.mem_map.mpr ⟨t, List.mem_cons_self _ _, rfl⟩
  · intro g hg hnone
    unfold geo_merged
    have hms : (emis_region_total df).filter (fun t => geoKey g == some (upperStr t.1)) = [] := by
      apply List.filter_eq_nil_iff.mpr
      intro t ht
      simpa using hnone t ht
    refine List.mem_flatMap.mpr ⟨g, hg, ?_⟩
    unfold geoMergeRow
    rw [hms]
    exact List.mem_singleton.mpr rfl

/-- Witness for C10: an unmapped geometry feature survives the merge with
emissions value 0. -/
theorem geo_merged_left_total_witness :
    (loadGeoFeature "Desconocida", (0 : ℚ)) ∈
      geo_merged [loadGeoFeature "Desconocida"] demoDf :=
  (geo_merged_left_total [loadGeoFeature "Desconocida"] demoDf).2
    (loadGeoFeature "Desconocida") (by with_unfolding_all decide)
    (by with_unfolding_all decide)

end MMA
